import Mathlib

/-!
Shallow embedding of the execution-orchestration core of `src/app.py`
(generation pipeline, sandbox orchestrator, run-configuration table,
request entry point), together with theorems settling the specification
claims about it.
-/

/-- One server-sent event of the generation pipeline
(`stream_message` kinds in src/app.py: status, final_code, error). -/
inductive GenEvent where
  | status (message : String)
  | finalCode (code output : String)
  | error (message : String)
deriving DecidableEq

/-- A terminal event is `finalCode` or `error`. -/
def GenEvent.isTerminal : GenEvent → Bool
  | .finalCode _ _ => true
  | .error _ => true
  | .status _ => false

/-- Behaviour of the model client on one attempt: a truthy response with
text, a raised exception with message `msg`, or a falsy/empty response
(the `if not response: continue` branch of src/app.py line 88). -/
inductive ModelResult where
  | success (text : String)
  | exc (msg : String)
  | empty
deriving DecidableEq

/-- Uploaded-file record (`uploaded_file_info` dict with id, name, content). -/
structure UploadedFileInfo where
  id : String
  name : String
  content : String
deriving DecidableEq

/-- src/app.py line 31. -/
def MAX_RETRIES : Nat := 3

/-- Prompt construction of src/app.py lines 79-81: prepend file context
when `uploaded_file_info` is truthy, otherwise use the prompt verbatim. -/
def full_prompt (prompt : String) (uploaded_file_info : Option UploadedFileInfo) : String :=
  match uploaded_file_info with
  | none => prompt
  | some f => "File content:\n" ++ f.content ++ "\n\nPrompt: " ++ prompt

/-- Status message of src/app.py line 74. -/
def attemptMsg (attempt : Nat) : String :=
  "Attempt " ++ toString (attempt + 1) ++ "/" ++ toString MAX_RETRIES ++ ": Generating code..."

/-- The retry loop of `generation_logic` (src/app.py lines 72-108), as a
fold over the attempt indices of `range(MAX_RETRIES)`.  Returns the event
sequence together with the list of prompts sent to the model client.
The exception re-raised on the last attempt (line 105) is caught by the
outer handler (lines 110-115), which emits the terminal error event; a
falsy response falls through `continue` and, when the loop is exhausted,
ends the sequence with no terminal event. -/
def genLoop (client : Nat → String → ModelResult) (fp : String) :
    List Nat → List GenEvent × List String
  | [] => ([], [])
  | attempt :: rest =>
    let st := GenEvent.status (attemptMsg attempt)
    match client attempt fp with
    | .empty =>
      let r := genLoop client fp rest
      (st :: r.1, fp :: r.2)
    | .success t => ([st, GenEvent.finalCode t ""], [fp])
    | .exc e =>
      if attempt = MAX_RETRIES - 1 then
        ([st, GenEvent.error ("Code generation failed: " ++ e)], [fp])
      else
        let r := genLoop client fp rest
        (st :: GenEvent.status ("Attempt failed: " ++ e ++ ". Retrying...") :: r.1,
         fp :: r.2)

/-- `generation_logic` of src/app.py lines 67-115, parameterised by the
model client's behaviour on each attempt.  Yields the event sequence and
the prompts sent; `language` is only logged by the source. -/
def generation_logic (client : Nat → String → ModelResult)
    (prompt language : String) (uploaded_file_info : Option UploadedFileInfo) :
    List GenEvent × List String :=
  genLoop client (full_prompt prompt uploaded_file_info) (List.range MAX_RETRIES)

/-- GET query parameters of the `/generate` route (src/app.py lines 134-137). -/
structure GetParams where
  prompt : Option String
  language : Option String
deriving DecidableEq

/-- POST JSON body of the `/generate` route (src/app.py lines 123-133). -/
structure PostBody where
  prompt : Option String
  language : Option String
  uploaded_file_info : Option UploadedFileInfo
deriving DecidableEq

/-- A request to `/generate`: GET with query parameters, or POST with an
optional JSON body (`none` models an absent/falsy body, line 125). -/
inductive GenRequest where
  | get (params : GetParams)
  | post (body : Option PostBody)
deriving DecidableEq

/-- Response of the `/generate` route: an immediate SSE error response,
or a streaming response wrapping `generation_logic` (line 155-158). -/
inductive GenResponse where
  | immediateError (message : String)
  | stream (prompt language : String) (uploaded_file_info : Option UploadedFileInfo)
deriving DecidableEq

/-- Python falsiness of an optional string: `None` and `""` are falsy. -/
def isBlank : Option String → Bool
  | none => true
  | some s => s.isEmpty

/-- Validation and dispatch of src/app.py lines 141-158: reject a falsy
prompt, then a falsy language, else stream the pipeline. -/
def generateChecked (prompt language : Option String)
    (uploaded_file_info : Option UploadedFileInfo) : GenResponse :=
  if isBlank prompt then GenResponse.immediateError "Prompt is required"
  else if isBlank language then GenResponse.immediateError "Language is required"
  else GenResponse.stream (prompt.getD "") (language.getD "") uploaded_file_info

/-- The `/generate` endpoint, src/app.py lines 117-158.  On GET the
uploaded-file parameter is unconditionally `none` (line 137). -/
def generate : GenRequest → GenResponse
  | .post none => GenResponse.immediateError "No JSON data provided"
  | .post (some b) => generateChecked b.prompt b.language b.uploaded_file_info
  | .get p => generateChecked p.prompt p.language none

/-- The prompt carried by a request (absent for a bodiless POST). -/
def reqPrompt : GenRequest → Option String
  | .post none => none
  | .post (some b) => b.prompt
  | .get p => p.prompt

/-- The language carried by a request (absent for a bodiless POST). -/
def reqLanguage : GenRequest → Option String
  | .post none => none
  | .post (some b) => b.language
  | .get p => p.language

-- helper equalities for the concrete status messages

theorem attemptMsg_0 : attemptMsg 0 = "Attempt 1/3: Generating code..." := rfl

theorem attemptMsg_1 : attemptMsg 1 = "Attempt 2/3: Generating code..." := rfl

theorem attemptMsg_2 : attemptMsg 2 = "Attempt 3/3: Generating code..." := rfl

/-- Every prompt recorded by `genLoop` is the effective prompt `fp`. -/
theorem genLoop_prompts_replicate (client : Nat → String → ModelResult) (fp : String) :
    ∀ l : List Nat, ∃ n, (genLoop client fp l).2 = List.replicate n fp := by
  intro l
  induction l with
  | nil => exact ⟨0, rfl⟩
  | cons a rest ih =>
    obtain ⟨n, hn⟩ := ih
    cases hc : client a fp with
    | empty => exact ⟨n + 1, by simp [genLoop, hc, hn, List.replicate_succ]⟩
    | success t => exact ⟨1, by simp [genLoop, hc]⟩
    | exc e =>
      by_cases ha : a = MAX_RETRIES - 1
      · subst ha
        exact ⟨1, by simp [genLoop, hc]⟩
      · exact ⟨n + 1, by simp [genLoop, hc, ha, hn, List.replicate_succ]⟩

/-- One entry of the `DOCKER_IMAGES` table (src/app.py lines 37-58). -/
structure LangConfig where
  image : Option String
  file : String
  command : Option (List String)
deriving DecidableEq

/-- The run-configuration table `DOCKER_IMAGES` of src/app.py lines 37-58,
as a lookup function (`DOCKER_IMAGES.get(language)`, line 247). -/
def DOCKER_IMAGES : String → Option LangConfig
  | "python" => some ⟨some "stellar-python-sandbox:3.12", "main.py",
      some ["python", "main.py"]⟩
  | "cpp" => some ⟨some "stellar-cpp-sandbox:latest", "main.cpp",
      some ["g++", "main.cpp", "-o", "main", "&&", "./main"]⟩
  | "java" => some ⟨some "stellar-java-sandbox:latest", "Main.java",
      some ["javac", "Main.java", "&&", "java", "Main"]⟩
  | "html" => some ⟨none, "index.html", none⟩
  | _ => none

/-- Outcome of the `docker info` availability probe (src/app.py lines
252-254): a zero exit, a non-zero exit (`CalledProcessError` under
`check=True`), a missing binary (`FileNotFoundError`), or any other
exception raised by the probe, which the source does not catch. -/
inductive ProbeOutcome where
  | ok
  | calledProcessError
  | fileNotFound
  | otherExc (msg : String)
deriving DecidableEq

/-- Outcome of a filesystem step inside the `try` block (entry-file write
at lines 262-264, upload copy at line 270): success, or an exception
with message `msg`, caught by the generic handler at line 314. -/
inductive StepOutcome where
  | ok
  | excMsg (msg : String)
deriving DecidableEq

/-- Outcome of the `docker inspect` container check (lines 278-281):
a returned (exit code, stdout) pair, or a raised exception handled by the
fallback at lines 290-292. -/
inductive InspectOutcome where
  | returned (returncode : Int) (stdout : String)
  | raisedExc
deriving DecidableEq

/-- Outcome of `Popen`/`communicate` with `timeout=30` (lines 296-304):
completion, `TimeoutExpired` (line 308), or another exception (line 314). -/
inductive ExecOutcome where
  | completed (returncode : Int) (stdout stderr : String)
  | timedOut
  | raisedMsg (msg : String)
deriving DecidableEq

/-- Outcome of the local `subprocess.run(["python", f.name], timeout=30)`
in `run_code_locally` (lines 230-235): completion, `TimeoutExpired` whose
`str(e)` is `excStr`, or another exception whose `str(e)` is `excStr`. -/
inductive LocalOutcome where
  | completed (returncode : Int) (stdout stderr : String)
  | timedOut (excStr : String)
  | raisedMsg (excStr : String)
deriving DecidableEq

/-- The behaviour of the external world during one orchestration call:
probe result, filesystem step results, container check, sandboxed
execution, and local execution. -/
structure DockerEnv where
  probe : ProbeOutcome
  writeEntry : StepOutcome
  uploadSourceExists : Bool
  copyUpload : StepOutcome
  containerCheck : InspectOutcome
  execRun : ExecOutcome
  localRun : LocalOutcome
deriving DecidableEq

/-- Result of `run_code_locally`: the `(returncode, stdout, stderr)`
triple, plus whether the `delete=False` temporary file was left behind
(`os.unlink` at line 237 is skipped when an exception fires first). -/
structure LocalResult where
  result : Int × String × String
  leftoverTempFile : Bool
deriving DecidableEq

/-- `run_code_locally` of src/app.py lines 219-244.  Only python is
supported; `TimeoutExpired` is caught by the generic `except Exception`
handler at line 240 and reported as a `Local execution error`. -/
def run_code_locally (code language : String) (localRun : LocalOutcome) : LocalResult :=
  if language = "python" then
    match localRun with
    | .completed rc out err => { result := (rc, out, err), leftoverTempFile := false }
    | .timedOut s =>
      { result := (1, "", "Local execution error: " ++ s), leftoverTempFile := true }
    | .raisedMsg s =>
      { result := (1, "", "Local execution error: " ++ s), leftoverTempFile := true }
  else
    { result := (1, "", "Local execution not supported for " ++ language),
      leftoverTempFile := false }

/-- The backend invocation selected at src/app.py lines 276-294: an
ephemeral `docker run --rm` from the configured image, or `docker exec`
inside the existing per-language container. -/
inductive DockerInvocation where
  | runEphemeral (image : String) (command : List String)
  | execExisting (container : String) (command : List String)
deriving DecidableEq

/-- Python's `"true" in stdout` substring test (line 283). -/
def containsTrue (s : String) : Bool := 2 ≤ (s.splitOn "true").length

/-- Observable outcome of one `run_code_in_docker` call: the returned
triple (`none` when an uncaught exception propagated, recorded in
`raised`), whether the workspace directory was created and whether it
still exists after the call, the Docker invocation attempted (if any),
whether the local fallback ran, and the content written into the
workspace's entry file (if the write happened). -/
structure OrchResult where
  result : Option (Int × String × String)
  raised : Option String
  workspaceCreated : Bool
  workspaceExistsAfter : Bool
  dockerInvocation : Option DockerInvocation
  localInvoked : Bool
  entryFileContent : Option String
deriving DecidableEq

/-- The policy no-op result of src/app.py line 249. -/
def unsupportedOrch : OrchResult :=
  { result := some (0, "Language not supported for server-side execution.", ""),
    raised := none, workspaceCreated := false, workspaceExistsAfter := false,
    dockerInvocation := none, localInvoked := false, entryFileContent := none }

/-- `run_code_in_docker` of src/app.py lines 246-318, over an explicit
environment.  The `finally` at lines 317-318 removes the workspace on
every path through the `try` block; the probe's uncaught exceptions
propagate before any workspace is created. -/
def run_code_in_docker (code language : String) (uploaded_file_info : Option UploadedFileInfo)
    (env : DockerEnv) : OrchResult :=
  match DOCKER_IMAGES language with
  | none => unsupportedOrch
  | some cfg =>
    match cfg.image with
    | none => unsupportedOrch
    | some image =>
      match env.probe with
      | .calledProcessError =>
        { result := some (run_code_locally code language env.localRun).result,
          raised := none, workspaceCreated := false, workspaceExistsAfter := false,
          dockerInvocation := none, localInvoked := true, entryFileContent := none }
      | .fileNotFound =>
        { result := some (run_code_locally code language env.localRun).result,
          raised := none, workspaceCreated := false, workspaceExistsAfter := false,
          dockerInvocation := none, localInvoked := true, entryFileContent := none }
      | .otherExc m =>
        { result := none, raised := some m, workspaceCreated := false,
          workspaceExistsAfter := false, dockerInvocation := none,
          localInvoked := false, entryFileContent := none }
      | .ok =>
        match env.writeEntry with
        | .excMsg m =>
          { result := some (1, "", "Docker execution error: " ++ m), raised := none,
            workspaceCreated := true, workspaceExistsAfter := false,
            dockerInvocation := none, localInvoked := false, entryFileContent := none }
        | .ok =>
          let copyStep : StepOutcome :=
            match uploaded_file_info with
            | some _ => if env.uploadSourceExists then env.copyUpload else .ok
            | none => .ok
          match copyStep with
          | .excMsg m =>
            { result := some (1, "", "Docker execution error: " ++ m), raised := none,
              workspaceCreated := true, workspaceExistsAfter := false,
              dockerInvocation := none, localInvoked := false,
              entryFileContent := some code }
          | .ok =>
            let container_name := language ++ "-sandbox"
            let command := cfg.command.getD []
            let invocation : DockerInvocation :=
              match env.containerCheck with
              | .returned rc out =>
                if rc ≠ 0 ∨ containsTrue out = false then
                  .runEphemeral image command
                else
                  .execExisting container_name command
              | .raisedExc => .runEphemeral image command
            match env.execRun with
            | .completed rc out err =>
              { result := some (rc, out, err), raised := none,
                workspaceCreated := true, workspaceExistsAfter := false,
                dockerInvocation := some invocation, localInvoked := false,
                entryFileContent := some code }
            | .timedOut =>
              { result := some (1, "", "Execution timed out after 30 seconds."),
                raised := none, workspaceCreated := true, workspaceExistsAfter := false,
                dockerInvocation := some invocation, localInvoked := false,
                entryFileContent := some code }
            | .raisedMsg m =>
              { result := some (1, "", "Docker execution error: " ++ m), raised := none,
                workspaceCreated := true, workspaceExistsAfter := false,
                dockerInvocation := some invocation, localInvoked := false,
                entryFileContent := some code }

/-- Helper: a falsy prompt or language makes `generateChecked` return an
immediate error response. -/
theorem generateChecked_blank (p l : Option String) (u : Option UploadedFileInfo)
    (h : isBlank p = true ∨ isBlank l = true) :
    ∃ m, generateChecked p l u = GenResponse.immediateError m := by
  cases hp : isBlank p with
  | true => exact ⟨"Prompt is required", by simp [generateChecked, hp]⟩
  | false =>
    have hl : isBlank l = true := by
      rcases h with h | h
      · rw [hp] at h
        exact absurd h (by simp)
      · exact h
    exact ⟨"Language is required", by simp [generateChecked, hp, hl]⟩

/-- C1: the claim says a terminal event (final_code or error) is always
eventually produced, exactly once, for every model-client behaviour.
The code violates this: when the client returns an empty/falsy response
on all 3 attempts, the loop is exhausted through `continue` and the
stream ends after the 3 attempt Status events with no terminal event. -/
theorem C1_all_empty_no_terminal :
    (generation_logic (fun _ _ => ModelResult.empty) "p" "python" none).1 =
      [GenEvent.status "Attempt 1/3: Generating code...",
       GenEvent.status "Attempt 2/3: Generating code...",
       GenEvent.status "Attempt 3/3: Generating code..."] ∧
    (generation_logic (fun _ _ => ModelResult.empty) "p" "python" none).1.filter
      GenEvent.isTerminal = [] := by
  decide

/-- C2, counterexample: with the model client raising on all 3 attempts,
the pipeline emits 6 events (3 attempt Status events interleaved with 2
failure-retry Status events, then the terminal Error), not 4. -/
theorem C2_total_events_counterexample :
    (generation_logic (fun _ _ => ModelResult.exc "boom") "p" "python" none).1 =
      [GenEvent.status "Attempt 1/3: Generating code...",
       GenEvent.status "Attempt failed: boom. Retrying...",
       GenEvent.status "Attempt 2/3: Generating code...",
       GenEvent.status "Attempt failed: boom. Retrying...",
       GenEvent.status "Attempt 3/3: Generating code...",
       GenEvent.error "Code generation failed: boom"] ∧
    (generation_logic (fun _ _ => ModelResult.exc "boom") "p" "python" none).1.length ≠ 4 := by
  decide

/-- C2, amended: when the model client raises on all 3 attempts, the
event sequence is exactly the 3 attempt Status events interleaved with
the 2 failure-retry Status events, followed by a single terminal Error —
6 events in total, with nothing after the Error. -/
theorem C2_all_fail_trace (client : Nat → String → ModelResult)
    (p language : String) (u : Option UploadedFileInfo) (e0 e1 e2 : String)
    (h0 : client 0 (full_prompt p u) = ModelResult.exc e0)
    (h1 : client 1 (full_prompt p u) = ModelResult.exc e1)
    (h2 : client 2 (full_prompt p u) = ModelResult.exc e2) :
    (generation_logic client p language u).1 =
      [GenEvent.status "Attempt 1/3: Generating code...",
       GenEvent.status ("Attempt failed: " ++ e0 ++ ". Retrying..."),
       GenEvent.status "Attempt 2/3: Generating code...",
       GenEvent.status ("Attempt failed: " ++ e1 ++ ". Retrying..."),
       GenEvent.status "Attempt 3/3: Generating code...",
       GenEvent.error ("Code generation failed: " ++ e2)] ∧
    (generation_logic client p language u).1.length = 6 := by
  have hlist : (generation_logic client p language u).1 =
      [GenEvent.status "Attempt 1/3: Generating code...",
       GenEvent.status ("Attempt failed: " ++ e0 ++ ". Retrying..."),
       GenEvent.status "Attempt 2/3: Generating code...",
       GenEvent.status ("Attempt failed: " ++ e1 ++ ". Retrying..."),
       GenEvent.status "Attempt 3/3: Generating code...",
       GenEvent.error ("Code generation failed: " ++ e2)] := by
    unfold generation_logic
    rw [show List.range MAX_RETRIES = [0, 1, 2] from rfl]
    simp [genLoop, h0, h1, h2, MAX_RETRIES, attemptMsg_0, attemptMsg_1, attemptMsg_2]
  exact ⟨hlist, by rw [hlist]; rfl⟩

/-- Witness for `C2_all_fail_trace` at a concrete failing client. -/
theorem C2_all_fail_trace_witness :
    (generation_logic (fun _ _ => ModelResult.exc "ModelError: 500") "make a script"
        "python" none).1 =
      [GenEvent.status "Attempt 1/3: Generating code...",
       GenEvent.status ("Attempt failed: " ++ "ModelError: 500" ++ ". Retrying..."),
       GenEvent.status "Attempt 2/3: Generating code...",
       GenEvent.status ("Attempt failed: " ++ "ModelError: 500" ++ ". Retrying..."),
       GenEvent.status "Attempt 3/3: Generating code...",
       GenEvent.error ("Code generation failed: " ++ "ModelError: 500")] ∧
    (generation_logic (fun _ _ => ModelResult.exc "ModelError: 500") "make a script"
        "python" none).1.length = 6 :=
  C2_all_fail_trace (fun _ _ => ModelResult.exc "ModelError: 500") "make a script"
    "python" none "ModelError: 500" "ModelError: 500" "ModelError: 500" rfl rfl rfl

/-- C8: every prompt sent to the model client is the file-context prompt
when an uploaded file is present, and the caller's prompt verbatim
otherwise. -/
theorem C8_prompt_sent (client : Nat → String → ModelResult) (p language : String)
    (u : Option UploadedFileInfo) (s : String)
    (hs : s ∈ (generation_logic client p language u).2) :
    s = match u with
        | some f => "File content:\n" ++ f.content ++ "\n\nPrompt: " ++ p
        | none => p := by
  obtain ⟨n, hn⟩ := genLoop_prompts_replicate client (full_prompt p u) (List.range MAX_RETRIES)
  simp only [generation_logic] at hs
  rw [hn] at hs
  have h := List.eq_of_mem_replicate hs
  cases u with
  | none => simpa [full_prompt] using h
  | some f => simpa [full_prompt] using h

/-- Witness for `C8_prompt_sent` at a concrete request with a file. -/
theorem C8_prompt_sent_witness :
    ("File content:\nprint(2)\n\nPrompt: fix this" : String) =
      match (some ⟨"temp_id", "snippet.py", "print(2)"⟩ : Option UploadedFileInfo) with
      | some f => "File content:\n" ++ f.content ++ "\n\nPrompt: " ++ "fix this"
      | none => "fix this" :=
  C8_prompt_sent (fun _ _ => ModelResult.success "ok") "fix this" "python"
    (some ⟨"temp_id", "snippet.py", "print(2)"⟩)
    "File content:\nprint(2)\n\nPrompt: fix this" (by decide)

/-- C9: a request with a falsy (absent or empty) prompt or language is
answered with an immediate error response; the streaming pipeline is
never entered, so no model attempt or retry occurs. -/
theorem C9_missing_input_rejected (req : GenRequest)
    (h : isBlank (reqPrompt req) = true ∨ isBlank (reqLanguage req) = true) :
    (∃ m, generate req = GenResponse.immediateError m) ∧
    ∀ p l u, generate req ≠ GenResponse.stream p l u := by
  have key : ∃ m, generate req = GenResponse.immediateError m := by
    cases req with
    | post b =>
      cases b with
      | none => exact ⟨"No JSON data provided", rfl⟩
      | some body =>
        simp only [reqPrompt, reqLanguage] at h
        exact generateChecked_blank body.prompt body.language body.uploaded_file_info h
    | get params =>
      simp only [reqPrompt, reqLanguage] at h
      exact generateChecked_blank params.prompt params.language none h
  refine ⟨key, ?_⟩
  intro p l u hstream
  obtain ⟨m, hm⟩ := key
  rw [hm] at hstream
  exact GenResponse.noConfusion hstream

/-- Witness for `C9_missing_input_rejected` at a GET with empty prompt. -/
theorem C9_missing_input_rejected_witness :
    ∃ m, generate (GenRequest.get ⟨some "", some "python"⟩) =
      GenResponse.immediateError m :=
  (C9_missing_input_rejected (GenRequest.get ⟨some "", some "python"⟩)
    (Or.inl (by decide))).1

/-- C10: any GET request that reaches the pipeline carries no uploaded
file, so every prompt sent to the model is the caller's prompt verbatim. -/
theorem C10_get_request_verbatim (params : GetParams) (p l : String)
    (u : Option UploadedFileInfo) (client : Nat → String → ModelResult)
    (h : generate (GenRequest.get params) = GenResponse.stream p l u) :
    u = none ∧ ∀ s ∈ (generation_logic client p l u).2, s = p := by
  have hu : u = none := by
    simp only [generate, generateChecked] at h
    by_cases h1 : isBlank params.prompt = true
    · simp [h1] at h
    · by_cases h2 : isBlank params.language = true
      · simp [h1, h2] at h
      · simp [h1, h2] at h
        exact h.2.2.symm
  subst hu
  refine ⟨rfl, ?_⟩
  intro s hs
  obtain ⟨n, hn⟩ := genLoop_prompts_replicate client (full_prompt p none) (List.range MAX_RETRIES)
  simp only [generation_logic] at hs
  rw [hn] at hs
  simpa [full_prompt] using List.eq_of_mem_replicate hs

/-- Witness for `C10_get_request_verbatim` at a concrete GET request. -/
theorem C10_get_request_verbatim_witness :
    (none : Option UploadedFileInfo) = none ∧ ("hello" : String) = "hello" := by
  have h := C10_get_request_verbatim ⟨some "hello", some "python"⟩ "hello" "python"
    none (fun _ _ => ModelResult.success "x") (by decide)
  exact ⟨h.1, h.2 "hello" (by decide)⟩

/-- A healthy environment: probe succeeds, filesystem steps succeed, the
container check raises (falling through to an ephemeral run), execution
completes normally. -/
def probeOkEnv : DockerEnv :=
  { probe := ProbeOutcome.ok, writeEntry := StepOutcome.ok, uploadSourceExists := false,
    copyUpload := StepOutcome.ok, containerCheck := InspectOutcome.raisedExc,
    execRun := ExecOutcome.completed 0 "hi" "", localRun := LocalOutcome.completed 0 "" "" }

/-- An environment in which the Docker probe reports unavailable and the
local python run exceeds its 30-second timeout. -/
def localTimeoutEnv : DockerEnv :=
  { probe := ProbeOutcome.calledProcessError, writeEntry := StepOutcome.ok,
    uploadSourceExists := false, copyUpload := StepOutcome.ok,
    containerCheck := InspectOutcome.raisedExc,
    execRun := ExecOutcome.completed 0 "" "",
    localRun := LocalOutcome.timedOut "Command timed out after 30 seconds" }

/-- An environment in which the Docker probe itself raises an exception
other than `CalledProcessError`/`FileNotFoundError`. -/
def probeCrashEnv : DockerEnv :=
  { probe := ProbeOutcome.otherExc "PermissionError: docker", writeEntry := StepOutcome.ok,
    uploadSourceExists := false, copyUpload := StepOutcome.ok,
    containerCheck := InspectOutcome.raisedExc,
    execRun := ExecOutcome.completed 0 "" "",
    localRun := LocalOutcome.completed 0 "ok" "" }

/-- An environment whose Docker probe succeeds but whose sandboxed
execution exceeds the 30-second timeout. -/
def dockerTimeoutEnv : DockerEnv :=
  { probe := ProbeOutcome.ok, writeEntry := StepOutcome.ok, uploadSourceExists := false,
    copyUpload := StepOutcome.ok, containerCheck := InspectOutcome.raisedExc,
    execRun := ExecOutcome.timedOut, localRun := LocalOutcome.completed 0 "" "" }

/-- C3, counterexample: a python run that times out on the local fallback
path (Docker probe unavailable) returns stderr
`"Local execution error: ..."`, not `"Execution timed out after 30
seconds."`, refuting the claim for the local path. -/
theorem C3_local_timeout_counterexample :
    (run_code_in_docker "while True: pass" "python" none localTimeoutEnv).localInvoked
      = true ∧
    (run_code_in_docker "while True: pass" "python" none localTimeoutEnv).result =
      some (1, "", "Local execution error: Command timed out after 30 seconds") ∧
    "Local execution error: Command timed out after 30 seconds" ≠
      "Execution timed out after 30 seconds." := by
  decide

/-- C3, amended: on the Docker path a timed-out execution yields exit
code 1 with stderr exactly "Execution timed out after 30 seconds." and
the workspace no longer exists after the call; on the local fallback
path a timeout is caught by the generic handler and reported as exit
code 1 with stderr "Local execution error: " followed by the exception
text, and the temporary file is left behind. -/
theorem C3_timeout_semantics (code language : String) (u : Option UploadedFileInfo)
    (env : DockerEnv) (img : String) (s : String)
    (hImg : (DOCKER_IMAGES language).bind LangConfig.image = some img)
    (hProbe : env.probe = ProbeOutcome.ok)
    (hWrite : env.writeEntry = StepOutcome.ok)
    (hCopy : env.copyUpload = StepOutcome.ok)
    (hExec : env.execRun = ExecOutcome.timedOut) :
    (run_code_in_docker code language u env).result =
      some (1, "", "Execution timed out after 30 seconds.") ∧
    (run_code_in_docker code language u env).workspaceExistsAfter = false ∧
    (run_code_locally code "python" (LocalOutcome.timedOut s)).result =
      (1, "", "Local execution error: " ++ s) ∧
    (run_code_locally code "python" (LocalOutcome.timedOut s)).leftoverTempFile = true := by
  have hmain : (run_code_in_docker code language u env).result =
      some (1, "", "Execution timed out after 30 seconds.") ∧
      (run_code_in_docker code language u env).workspaceExistsAfter = false := by
    cases hD : DOCKER_IMAGES language with
    | none => rw [hD] at hImg; cases hImg
    | some cfg =>
      rw [hD] at hImg
      simp only [Option.some_bind] at hImg
      cases u <;> cases hb : env.uploadSourceExists <;> cases hcc : env.containerCheck <;>
        simp [run_code_in_docker, hD, hImg, hProbe, hWrite, hCopy, hExec, hb, hcc]
  exact ⟨hmain.1, hmain.2, by simp [run_code_locally], by simp [run_code_locally]⟩

/-- Witness for `C3_timeout_semantics` at a concrete timed-out run. -/
theorem C3_timeout_semantics_witness :
    (run_code_in_docker "while True: pass" "python" none dockerTimeoutEnv).result =
      some (1, "", "Execution timed out after 30 seconds.") ∧
    (run_code_in_docker "while True: pass" "python" none dockerTimeoutEnv).workspaceExistsAfter
      = false ∧
    (run_code_locally "while True: pass" "python"
        (LocalOutcome.timedOut "Command timed out after 30 seconds")).result =
      (1, "", "Local execution error: " ++ "Command timed out after 30 seconds") ∧
    (run_code_locally "while True: pass" "python"
        (LocalOutcome.timedOut "Command timed out after 30 seconds")).leftoverTempFile
      = true :=
  C3_timeout_semantics "while True: pass" "python" none dockerTimeoutEnv
    "stellar-python-sandbox:3.12" "Command timed out after 30 seconds"
    rfl rfl rfl rfl rfl

/-- C4: for a language that is absent from the run-configuration table or
has no sandbox image, `run_code_in_docker` returns the fixed policy
no-op triple, invokes no backend, and creates no workspace. -/
theorem C4_policy_noop (code language : String) (u : Option UploadedFileInfo)
    (env : DockerEnv)
    (h : (DOCKER_IMAGES language).bind LangConfig.image = none) :
    run_code_in_docker code language u env = unsupportedOrch ∧
    unsupportedOrch.result =
      some (0, "Language not supported for server-side execution.", "") ∧
    unsupportedOrch.dockerInvocation = none ∧
    unsupportedOrch.localInvoked = false ∧
    unsupportedOrch.workspaceCreated = false := by
  refine ⟨?_, rfl, rfl, rfl, rfl⟩
  cases hD : DOCKER_IMAGES language with
  | none => simp [run_code_in_docker, hD]
  | some cfg =>
    rw [hD] at h
    simp only [Option.some_bind] at h
    simp [run_code_in_docker, hD, h]

/-- Witness for `C4_policy_noop` at the markup language `html` (present
in the table with no sandbox image). -/
theorem C4_policy_noop_witness :
    (DOCKER_IMAGES "html").bind LangConfig.image = none ∧
    run_code_in_docker "<h1>hi</h1>" "html" none probeOkEnv = unsupportedOrch :=
  ⟨by decide,
   (C4_policy_noop "<h1>hi</h1>" "html" none probeOkEnv (by decide)).1⟩

/-- C5: whenever `run_code_in_docker` creates a workspace directory, the
directory no longer exists when the call returns, on every exit path
(normal completion, program failure, timeout, and caught faults). -/
theorem C5_workspace_cleanup (code language : String) (u : Option UploadedFileInfo)
    (env : DockerEnv)
    (h : (run_code_in_docker code language u env).workspaceCreated = true) :
    (run_code_in_docker code language u env).workspaceExistsAfter = false := by
  clear h
  cases hD : DOCKER_IMAGES language with
  | none => simp [run_code_in_docker, hD, unsupportedOrch]
  | some cfg =>
    cases hI : cfg.image with
    | none => simp [run_code_in_docker, hD, hI, unsupportedOrch]
    | some img =>
      cases hp : env.probe <;>
        cases hw : env.writeEntry <;>
        cases u <;>
        cases hb : env.uploadSourceExists <;>
        cases hcu : env.copyUpload <;>
        cases hcc : env.containerCheck <;>
        cases hex : env.execRun <;>
        simp [run_code_in_docker, hD, hI, hp, hw, hb, hcu, hcc, hex]

/-- Witness for `C5_workspace_cleanup` at a concrete healthy run. -/
theorem C5_workspace_cleanup_witness :
    (run_code_in_docker "print(1)" "python" none probeOkEnv).workspaceCreated = true ∧
    (run_code_in_docker "print(1)" "python" none probeOkEnv).workspaceExistsAfter = false :=
  ⟨by decide, C5_workspace_cleanup "print(1)" "python" none probeOkEnv (by decide)⟩

/-- C6, counterexample: when the Docker availability probe raises an
exception other than `CalledProcessError`/`FileNotFoundError`, the call
does not route to the local backend; the exception propagates to the
caller, refuting "if the probe itself fails for any reason, the call
routes to the local backend". -/
theorem C6_probe_crash_counterexample :
    (run_code_in_docker "print(1)" "python" none probeCrashEnv).localInvoked = false ∧
    (run_code_in_docker "print(1)" "python" none probeCrashEnv).result = none ∧
    (run_code_in_docker "print(1)" "python" none probeCrashEnv).raised =
      some "PermissionError: docker" := by
  decide

/-- C6, amended: for an executable language, when the probe reports the
daemon unavailable (non-zero `docker info` exit) or the docker binary is
missing, the call routes to the local backend, never attempts a Docker
invocation, and returns the local backend's result unchanged (so the
unavailability is not surfaced as an error unless the local backend
itself fails); any other probe exception propagates to the caller. -/
theorem C6_fallback_on_probe_unavailable (code language : String)
    (u : Option UploadedFileInfo) (env : DockerEnv) (img : String)
    (hImg : (DOCKER_IMAGES language).bind LangConfig.image = some img)
    (hProbe : env.probe = ProbeOutcome.calledProcessError ∨
      env.probe = ProbeOutcome.fileNotFound) :
    (run_code_in_docker code language u env).dockerInvocation = none ∧
    (run_code_in_docker code language u env).localInvoked = true ∧
    (run_code_in_docker code language u env).result =
      some (run_code_locally code language env.localRun).result ∧
    (run_code_in_docker code language u env).raised = none := by
  cases hD : DOCKER_IMAGES language with
  | none => rw [hD] at hImg; cases hImg
  | some cfg =>
    rw [hD] at hImg
    simp only [Option.some_bind] at hImg
    rcases hProbe with hp | hp <;> simp [run_code_in_docker, hD, hImg, hp]

/-- Witness for `C6_fallback_on_probe_unavailable` with an unavailable
daemon and a healthy local run. -/
theorem C6_fallback_on_probe_unavailable_witness :
    (run_code_in_docker "print(1)" "python" none localTimeoutEnv).dockerInvocation
      = none ∧
    (run_code_in_docker "print(1)" "python" none localTimeoutEnv).localInvoked = true ∧
    (run_code_in_docker "print(1)" "python" none localTimeoutEnv).result =
      some (run_code_locally "print(1)" "python" localTimeoutEnv.localRun).result ∧
    (run_code_in_docker "print(1)" "python" none localTimeoutEnv).raised = none :=
  C6_fallback_on_probe_unavailable "print(1)" "python" none localTimeoutEnv
    "stellar-python-sandbox:3.12" rfl (Or.inl rfl)

/-- C7: whenever the Docker path proceeds past workspace creation (probe
succeeded, entry-file write succeeded), the content written into the
workspace's entry file is exactly the `code` argument, with no
transformation. -/
theorem C7_entry_file_roundtrip (code language : String) (u : Option UploadedFileInfo)
    (env : DockerEnv) (img : String)
    (hImg : (DOCKER_IMAGES language).bind LangConfig.image = some img)
    (hProbe : env.probe = ProbeOutcome.ok)
    (hWrite : env.writeEntry = StepOutcome.ok) :
    (run_code_in_docker code language u env).entryFileContent = some code := by
  cases hD : DOCKER_IMAGES language with
  | none => rw [hD] at hImg; cases hImg
  | some cfg =>
    rw [hD] at hImg
    simp only [Option.some_bind] at hImg
    cases u <;> cases hb : env.uploadSourceExists <;> cases hcu : env.copyUpload <;>
      cases hcc : env.containerCheck <;> cases hex : env.execRun <;>
      simp [run_code_in_docker, hD, hImg, hProbe, hWrite, hb, hcu, hcc, hex]

/-- Witness for `C7_entry_file_roundtrip` at a code string with leading
and trailing whitespace and embedded newlines. -/
theorem C7_entry_file_roundtrip_witness :
    (run_code_in_docker "  print(1)\n\nprint(2)  \n" "python" none
        probeOkEnv).entryFileContent = some "  print(1)\n\nprint(2)  \n" :=
  C7_entry_file_roundtrip "  print(1)\n\nprint(2)  \n" "python" none probeOkEnv
    "stellar-python-sandbox:3.12" rfl rfl rfl
